import Mathlib

/-!
# Verification of the NFL video-analysis frontend

A shallow embedding of the React frontend of the video-analysis webapp:
the result-rendering component (`AnalysisResults`), the upload component
(`VideoUpload` together with the acceptance behaviour of its configured
dropzone collaborator), and the application shell (`App`) with its
status-polling state machine.

Conventions of the embedding:
* JavaScript numbers are modelled as `ℚ` (the claims under study are about
  data flow and control flow, not floating-point rounding).
* JavaScript's `x || d` on numbers (`0`, `null` and `undefined` are falsy)
  is `jsOrQ`; on strings (`""`, `null`, `undefined` falsy) it is `jsOrStr`.
* A JavaScript `Map` built by successive `set` calls is modelled as a
  function `Int → Option _` updated left to right.
* React state updates are modelled as explicit state-passing: the `App`
  component is a transition function `step` on `AppState` driven by
  `AppEvent`s, with `Reachable` the states arising from the initial render.
-/

namespace NflFrontend

/-- JavaScript `x || d` for an optional numeric field: `null`/`undefined`
and `0` are falsy and fall through to the default. -/
def jsOrQ : Option ℚ → ℚ → ℚ
  | some x, d => if x = 0 then d else x
  | none, d => d

/-- JavaScript `s || d` for an optional string field: `null`/`undefined`
and the empty string are falsy and fall through to the default. -/
def jsOrStr : Option String → String → String
  | some s, d => if s = "" then d else s
  | none, d => d

/-- A bounding box `[x1, y1, x2, y2]` in native video pixel coordinates,
as carried by each player entry of the result payload. -/
structure BBox where
  x1 : ℚ
  y1 : ℚ
  x2 : ℚ
  y2 : ℚ
deriving DecidableEq, Repr

/-- A player entry of one frame of the result payload's `frame_data`:
`\x7btrack_id, bbox, openscore?\x7d`.  The `openscore` field is optional —
a receiver with no sample in that frame simply lacks the key. -/
structure Player where
  track_id : Nat
  bbox : BBox
  openscore : Option ℚ
deriving DecidableEq, Repr

/-- One entry of the payload's `frame_data` list: a frame id and the
(possibly missing) list of player entries for that frame. -/
structure FrameEntry where
  frame_id : Int
  players : Option (List Player)
deriving DecidableEq, Repr

/-- One `map.set` call of the `framePlayerMap` construction
(`map.set(frame.frame_id, frame.players || [])`): a later write for the
same key overwrites an earlier one. -/
def mapSet (m : Int → Option (List Player)) (key : Int) (v : List Player) :
    Int → Option (List Player) :=
  fun k => if k = key then some v else m k

/-- `framePlayerMap` of `AnalysisResults`: fold the payload's `frame_data`
into a map from `frame_id` to that frame's player list, where
`frame.players || []` replaces a missing list by the empty one. -/
def framePlayerMap (frameData : List FrameEntry) : Int → Option (List Player) :=
  frameData.foldl (fun m f => mapSet m f.frame_id (f.players.getD [])) (fun _ => none)

/-- `results.results.fps || 30` of `AnalysisResults`. -/
def payloadFps (fps : Option ℚ) : ℚ := jsOrQ fps 30

/-- The frame index computed by `updateActivePlayersForCurrentTime`:
`Math.max(0, Math.floor(videoEl.currentTime * fps))`. -/
def computeFrameId (currentTime fps : ℚ) : Int :=
  max 0 ⌊currentTime * fps⌋

/-- `updateActivePlayersForCurrentTime` of `AnalysisResults`: look the
computed frame index up in `framePlayerMap` and default a missing entry to
the empty player list (`framePlayerMap.get(frameId) || []`). -/
def updateActivePlayersForCurrentTime (frameData : List FrameEntry)
    (fps : Option ℚ) (currentTime : ℚ) : List Player :=
  (framePlayerMap frameData (computeFrameId currentTime (payloadFps fps))).getD []

/-- The numeric score the player tooltip renders for a hovered player:
`Number(hoveredPlayer.openscore || 0)` — a missing `openscore` is coalesced
to `0` before display. -/
def tooltipScoreValue (p : Player) : ℚ := jsOrQ p.openscore 0

/-- The pixel-to-yard constant hard-coded inside
`getPlayerTooltipExplanation`: `const pxPerYard = 1920 / 53.3` (exact
rational arithmetic; the claim under study concerns where the scale factor
comes from, not floating-point rounding). -/
def pxPerYard : ℚ := 1920 / (533 / 10)

/-- The yard conversion performed by `getPlayerTooltipExplanation` on the
context's nearest-defender distance:
`(ctx.nearest_defender_distance / pxPerYard)`.  It reads no payload scale
metadata. -/
def tooltipYards (nearestDefenderDistance : ℚ) : ℚ :=
  nearestDefenderDistance / pxPerYard

/-- Modelled from the spec: the result payload must carry a pixel-to-yard
factor among its field-of-play scale metadata, and scale-dependent distance
conversions are to divide by that payload-supplied factor.  This is the
spec-side conversion, to be compared with `tooltipYards`. -/
def tooltipYardsSpec (payloadPxPerYard dist : ℚ) : ℚ := dist / payloadPxPerYard

/-- `results.results.video_width || 0` of `AnalysisResults`. -/
def sourceWidth (video_width : Option ℚ) : ℚ := jsOrQ video_width 0

/-- The native width used for bounding-box placement and hit-testing:
`sourceWidth || videoEl.videoWidth || 1`. -/
def nativeWidth (video_width : Option ℚ) (elementWidth : ℚ) : ℚ :=
  jsOrQ (some (sourceWidth video_width)) (jsOrQ (some elementWidth) 1)

/-- The in-box test of `handleOverlayMouseMove`:
`px >= x1 && px <= x2 && py >= y1 && py <= y2` (inclusive bounds). -/
def inBBox (px py : ℚ) (p : Player) : Bool :=
  decide (p.bbox.x1 ≤ px) && decide (px ≤ p.bbox.x2) &&
  decide (p.bbox.y1 ≤ py) && decide (py ≤ p.bbox.y2)

/-- The hit test of `handleOverlayMouseMove`:
`activePlayers.find(...)` — the first player in list order whose bounding
box contains the cursor point. -/
def hitTest (players : List Player) (px py : ℚ) : Option Player :=
  players.find? (fun p => inBBox px py p)

/-- `handleOverlayMouseMove` of `AnalysisResults`, reduced to the hovered
player it stores: when the video is not paused the hover is cleared; when
paused, the first player whose box contains the (native-coordinate) cursor
point is hovered, and `none` if no box contains it. -/
def handleOverlayMouseMove (paused : Bool) (players : List Player)
    (px py : ℚ) : Option Player :=
  if !paused then none else hitTest players px py

/-- The `feedback.statistics` record rendered by the statistics grid. -/
structure Statistics where
  total_receivers_tracked : Nat
  avg_openscore_all_receivers : ℚ
  total_players_detected : Nat
deriving DecidableEq, Repr

/-- One entry of `feedback.best_options`. -/
structure BestOption where
  receiver : String
  avg_openscore : ℚ
  max_openscore : ℚ
  consistency : ℚ
deriving DecidableEq, Repr

/-- One entry of `feedback.missed_opportunities`. -/
structure MissedOpportunity where
  receiver : String
  peak_openscore : ℚ
  avg_openscore : ℚ
  note : String
deriving DecidableEq, Repr

/-- One entry of `feedback.key_moments`. -/
structure KeyMoment where
  frame : Nat
  description : String
  openscore : ℚ
deriving DecidableEq, Repr

/-- The `feedback` object of a completed result payload, as read by
`AnalysisResults`. -/
structure Feedback where
  overall_score : ℚ
  overall_grade : String
  summary : String
  statistics : Statistics
  strengths : List String
  areas_for_improvement : List String
  recommendations : List String
  best_options : List BestOption
  missed_opportunities : List MissedOpportunity
  key_moments : List KeyMoment
deriving DecidableEq, Repr

/-- The top-level sections `AnalysisResults` can emit, in document order. -/
inductive PageSection
  | gradeSection
  | statsGrid
  | strengthsSection
  | improvementsSection
  | recommendationsSection
  | bestOptionsSection
  | missedSection
  | keyMomentsSection
  | videoPlayerSection
deriving DecidableEq, Repr

/-- The list of sections `AnalysisResults` renders for a given `feedback`:
the grade card, the statistics grid and the video player are unconditional;
each feedback-list-driven section is guarded by `feedback.<list>.length > 0`
and omitted otherwise.  Rendering is a total function of the feedback. -/
def renderedSections (f : Feedback) : List PageSection :=
  [PageSection.gradeSection, PageSection.statsGrid]
  ++ (if f.strengths.length > 0 then [PageSection.strengthsSection] else [])
  ++ (if f.areas_for_improvement.length > 0 then [PageSection.improvementsSection] else [])
  ++ (if f.recommendations.length > 0 then [PageSection.recommendationsSection] else [])
  ++ (if f.best_options.length > 0 then [PageSection.bestOptionsSection] else [])
  ++ (if f.missed_opportunities.length > 0 then [PageSection.missedSection] else [])
  ++ (if f.key_moments.length > 0 then [PageSection.keyMomentsSection] else [])
  ++ [PageSection.videoPlayerSection]

/-! ## The application shell and its polling state machine -/

/-- The task statuses of the task-state contract. -/
inductive TaskStatus
  | queued
  | processing
  | completed
  | failed
deriving DecidableEq, Repr

/-- The body of a `/api/status/:taskId` response, as read by the poll
effect: `status`, an optional `progress` percentage and an optional
`message`. -/
structure StatusResponse where
  status : TaskStatus
  progress : Option ℚ
  message : Option String
deriving DecidableEq, Repr

/-- The body of an upload response: `task_id` and the initial `status`. -/
structure UploadResponse where
  task_id : String
  status : TaskStatus
deriving DecidableEq, Repr

/-- The React state of the `App` component: `taskId`, `status`, `results`
(abstracted to presence), `error` and `progress`. -/
structure AppState where
  taskId : Option String
  status : Option TaskStatus
  results : Option Unit
  error : Option String
  progress : ℚ
deriving DecidableEq, Repr

/-- The initial `App` state: everything `null`, progress `0`. -/
def initialState : AppState :=
  { taskId := none, status := none, results := none, error := none, progress := 0 }

/-- Whether the client's stored status is `completed` or `failed`. -/
def isTerminalStatus : Option TaskStatus → Bool
  | some TaskStatus.completed => true
  | some TaskStatus.failed => true
  | _ => false

/-- The guard of the polling effect:
`if (!taskId || status === completed || status === failed) return;` —
an interval is installed (polling is active) exactly when a task id is set
and the stored status is not terminal. -/
def pollingActive (s : AppState) : Bool :=
  s.taskId.isSome && !isTerminalStatus s.status

/-- The guard under which the upload widget is rendered (and hence its
callbacks can fire): `!taskId && !results`. -/
def uploadVisible (s : AppState) : Bool :=
  s.taskId.isNone && s.results.isNone

/-- The body of one successful poll tick: store the response's status and
`progress || 0`; on `completed` fetch and store the results; on `failed`
store `message || 'Processing failed'` as the error. -/
def applyPoll (resp : StatusResponse) (s : AppState) : AppState :=
  { s with
    status := some resp.status
    progress := jsOrQ resp.progress 0
    results := if resp.status = TaskStatus.completed then some () else s.results
    error :=
      if resp.status = TaskStatus.failed then
        some (jsOrStr resp.message "Processing failed")
      else s.error }

/-- The events that drive the `App` state: a successful poll tick, a poll
request failure (with the optional `detail` and `message` of the caught
error), the upload callbacks, and the reset button. -/
inductive AppEvent
  | pollTick (resp : StatusResponse)
  | pollError (detail message : Option String)
  | uploadSuccess (resp : UploadResponse)
  | uploadError (msg : String)
  | reset

/-- The transition function of the `App` component.  Poll events apply
only while polling is active (the effect installs no interval otherwise);
upload callbacks apply only while the upload widget is rendered;
`handleReset` restores the initial state. -/
def step (e : AppEvent) (s : AppState) : AppState :=
  match e with
  | AppEvent.pollTick resp =>
      if pollingActive s then applyPoll resp s else s
  | AppEvent.pollError detail message =>
      if pollingActive s then
        { s with error := some (jsOrStr detail (jsOrStr message "Failed to get status")) }
      else s
  | AppEvent.uploadSuccess resp =>
      if uploadVisible s then
        { taskId := some resp.task_id, status := some resp.status,
          results := none, error := none, progress := 0 }
      else s
  | AppEvent.uploadError msg =>
      if uploadVisible s then { s with error := some msg } else s
  | AppEvent.reset => initialState

/-- Run a sequence of events from a state. -/
def run (s : AppState) (es : List AppEvent) : AppState :=
  es.foldl (fun s e => step e s) s

/-- The `App` states reachable from the initial render. -/
inductive Reachable : AppState → Prop
  | init : Reachable initialState
  | step (e : AppEvent) {s : AppState} : Reachable s → Reachable (step e s)

/-! ## The upload component and its dropzone -/

/-- A file handed to the drop handler: its name and MIME type. -/
structure DroppedFile where
  name : String
  mimeType : String
deriving DecidableEq, Repr

/-- The acceptance predicate the configured dropzone collaborator applies
per file, for the configuration `accept: video/mp4 with extension .mp4`:
a file is accepted when its MIME type is `video/mp4` or its name ends in
`.mp4` (the suffix test is on the character sequence; the collaborator
lower-cases the name first, which the model leaves to the caller). -/
def acceptsMp4 (f : DroppedFile) : Bool :=
  f.mimeType == "video/mp4" || List.isSuffixOf ".mp4".data f.name.data

/-- A rejected file as delivered to `onDrop`: the file and the code and
message of the first error attached to it. -/
structure RejectedFile where
  file : DroppedFile
  code : String
  message : String
deriving DecidableEq, Repr

/-- The classification the dropzone collaborator performs on a drop under
the `VideoUpload` configuration (`accept` video/mp4, `maxFiles: 1`,
`multiple: false`): every file failing the type check is rejected with code
`file-invalid-type`; if more than one file passes the type check, all of
the passing files are rejected with code `too-many-files` (appended after
the type rejections) and none is accepted. -/
def classifyDrop (files : List DroppedFile) : List DroppedFile × List RejectedFile :=
  let accepted := files.filter acceptsMp4
  let rejections :=
    (files.filter (fun f => !acceptsMp4 f)).map
      (fun f => RejectedFile.mk f "file-invalid-type" "File type must be video/mp4,.mp4")
  if accepted.length > 1 then
    ([], rejections ++ accepted.map (fun f => RejectedFile.mk f "too-many-files" "Too many files"))
  else
    (accepted, rejections)

/-- The observable outcome of one `onDrop` call: the file submitted to
`uploadVideo`, if any, and the upload error message stored, if any. -/
structure DropOutcome where
  upload : Option DroppedFile
  uploadError : Option String
deriving DecidableEq, Repr

/-- `VideoUpload.onDrop`: when any file was rejected, map the first
rejection's first error code to a message (`file-invalid-type` →
"Only MP4 files are allowed", `too-many-files` →
"Please upload only one file at a time", otherwise the error's own
message), store it, and return without uploading; when nothing was
rejected, upload the first accepted file, or do nothing if none. -/
def onDrop (acceptedFiles : List DroppedFile) (rejectedFiles : List RejectedFile) :
    DropOutcome :=
  match rejectedFiles with
  | r :: _ =>
      let msg :=
        if r.code = "file-invalid-type" then "Only MP4 files are allowed"
        else if r.code = "too-many-files" then "Please upload only one file at a time"
        else r.message
      { upload := none, uploadError := some msg }
  | [] =>
      match acceptedFiles with
      | [] => { upload := none, uploadError := none }
      | f :: _ => { upload := some f, uploadError := none }

/-- A full drop: the dropzone classifies the files and `onDrop` receives
the accepted and rejected lists. -/
def fullDrop (files : List DroppedFile) : DropOutcome :=
  onDrop (classifyDrop files).1 (classifyDrop files).2

/-! ## Helper lemmas -/

/-- Folding `map.set` calls over entries none of which carry the key `k`
leaves the value at `k` unchanged. -/
theorem foldl_mapSet_not_mem (k : Int) :
    ∀ (fd : List FrameEntry) (m : Int → Option (List Player)),
      (∀ f ∈ fd, f.frame_id ≠ k) →
      fd.foldl (fun m f => mapSet m f.frame_id (f.players.getD [])) m k = m k
  | [], _, _ => rfl
  | f :: rest, m, h => by
      rw [List.foldl_cons,
        foldl_mapSet_not_mem k rest _ (fun g hg => h g (List.mem_cons_of_mem f hg))]
      show (if k = f.frame_id then some (f.players.getD []) else m k) = m k
      exact if_neg (fun hk => h f (List.mem_cons_self f rest) hk.symm)

/-- A frame id appearing in no `frame_data` entry is absent from
`framePlayerMap`. -/
theorem framePlayerMap_eq_none (fd : List FrameEntry) (k : Int)
    (h : ∀ f ∈ fd, f.frame_id ≠ k) : framePlayerMap fd k = none :=
  foldl_mapSet_not_mem k fd _ h

/-- `List.find?` returns the first element satisfying the predicate when
everything before it fails the predicate. -/
theorem find?_first (pred : Player → Bool) :
    ∀ (l₁ : List Player) (p : Player) (l₂ : List Player),
      (∀ q ∈ l₁, pred q = false) → pred p = true →
      (l₁ ++ p :: l₂).find? pred = some p
  | [], p, _, _, hp => by
      rw [List.nil_append]
      exact List.find?_cons_of_pos _ hp
  | q :: rest, p, l₂, h, hp => by
      rw [List.cons_append, List.find?_cons_of_neg]
      · exact find?_first pred rest p l₂ (fun g hg => h g (List.mem_cons_of_mem q hg)) hp
      · simp [h q (List.mem_cons_self q rest)]

/-! ## Claim theorems -/

/-- C1, counterexample: the claim "the rendered per-player output never
reports a zero score for a receiver whose sample is absent" is false on the
code: the tooltip renders `Number(hoveredPlayer.openscore || 0)`, so the
player entry with no `openscore` value is rendered with score `0`. -/
theorem C1_counterexample :
    (Player.mk 7 (BBox.mk 0 0 10 10) none).openscore = none
    ∧ tooltipScoreValue (Player.mk 7 (BBox.mk 0 0 10 10) none) = 0 :=
  ⟨rfl, rfl⟩

/-- C1, amended: a player entry that carries no `openscore` value is
rendered in the tooltip with score `0` — the display coalesces a missing
sample to zero (`openscore || 0`), so absence is shown exactly as a zero
score. -/
theorem C1_absent_score_rendered_as_zero (p : Player) (h : p.openscore = none) :
    tooltipScoreValue p = 0 := by
  simp [tooltipScoreValue, jsOrQ, h]

/-- C1, witness: the amended claim evaluated at a concrete scoreless
player. -/
theorem C1_absent_score_rendered_as_zero_witness :
    tooltipScoreValue (Player.mk 8 (BBox.mk 1 1 2 2) none) = 0 :=
  C1_absent_score_rendered_as_zero (Player.mk 8 (BBox.mk 1 1 2 2) none) rfl

/-- C2, counterexample: the claim "the pixel-to-yard distance conversion
takes its scale factor from the payload's field-of-play metadata, never
from a fixed built-in constant" is false on the code:
`getPlayerTooltipExplanation` hard-codes `pxPerYard = 1920 / 53.3`, so for
a payload whose pixel-to-yard factor is `2` the code's yard conversion of a
100-pixel distance disagrees with the payload-driven conversion. -/
theorem C2_counterexample :
    pxPerYard = 19200 / 533
    ∧ tooltipYardsSpec 2 100 = 50
    ∧ tooltipYards 100 ≠ tooltipYardsSpec 2 100 := by
  refine ⟨by norm_num [pxPerYard], by norm_num [tooltipYardsSpec], ?_⟩
  norm_num [tooltipYards, tooltipYardsSpec, pxPerYard]

/-- C2, amended: the frame-index computation takes its frames-per-second
factor from the payload when present (and nonzero), and bounding-box
placement takes the native width from the payload's `video_width` when
present and nonzero; but the tooltip's pixel-to-yard conversion always
multiplies by the fixed built-in constant `53.3 / 1920` and reads no
payload factor. -/
theorem C2_scale_sources (f w e d : ℚ) (hf : f ≠ 0) (hw : w ≠ 0) :
    payloadFps (some f) = f
    ∧ nativeWidth (some w) e = w
    ∧ tooltipYards d = d * (533 / 19200) := by
  refine ⟨by simp [payloadFps, jsOrQ, hf], by simp [nativeWidth, sourceWidth, jsOrQ, hw], ?_⟩
  have hpx : pxPerYard = 19200 / 533 := by norm_num [pxPerYard]
  rw [tooltipYards, hpx, div_eq_mul_inv]
  norm_num

/-- C2, witness: the amended claim evaluated at fps 24, payload width 1280,
element width 0 and a 19200-pixel distance. -/
theorem C2_scale_sources_witness :
    payloadFps (some 24) = 24
    ∧ nativeWidth (some 1280) 0 = 1280
    ∧ tooltipYards 19200 = 19200 * (533 / 19200) :=
  C2_scale_sources 24 1280 0 19200 (by norm_num) (by norm_num)

/-- C6: for a completed result whose six feedback lists are all empty,
rendering is total (the section list is a well-defined value) and each
list-driven, score-dependent section is omitted: only the grade card, the
statistics grid and the video player are emitted. -/
theorem C6_empty_feedback_sections (f : Feedback)
    (h1 : f.strengths = []) (h2 : f.areas_for_improvement = [])
    (h3 : f.recommendations = []) (h4 : f.best_options = [])
    (h5 : f.missed_opportunities = []) (h6 : f.key_moments = []) :
    renderedSections f =
      [PageSection.gradeSection, PageSection.statsGrid, PageSection.videoPlayerSection] := by
  simp [renderedSections, h1, h2, h3, h4, h5, h6]

/-- C6, witness: a concrete completed feedback with all six lists empty
renders exactly the three unconditional sections. -/
theorem C6_empty_feedback_sections_witness :
    renderedSections
      (Feedback.mk 70 "C" "ok" (Statistics.mk 0 0 0) [] [] [] [] [] []) =
      [PageSection.gradeSection, PageSection.statsGrid, PageSection.videoPlayerSection] :=
  C6_empty_feedback_sections
    (Feedback.mk 70 "C" "ok" (Statistics.mk 0 0 0) [] [] [] [] [] [])
    rfl rfl rfl rfl rfl rfl

/-- C7: when the frame id computed for the current playback time appears in
no `frame_data` entry, the active-player lookup resolves to the empty list
— the gap behaves as an empty-detection frame, and the lookup is total with
empty-list default (`framePlayerMap.get(frameId) || []`). -/
theorem C7_missing_frame_empty_players (frameData : List FrameEntry)
    (fps : Option ℚ) (t : ℚ)
    (h : ∀ f ∈ frameData, f.frame_id ≠ computeFrameId t (payloadFps fps)) :
    updateActivePlayersForCurrentTime frameData fps t = [] := by
  unfold updateActivePlayersForCurrentTime
  rw [framePlayerMap_eq_none _ _ h]
  rfl

/-- C7, witness: a payload holding only frame 5, probed at playback time 0
(frame id 0), yields the empty active-player list. -/
theorem C7_missing_frame_empty_players_witness :
    updateActivePlayersForCurrentTime
      [FrameEntry.mk 5 (some [Player.mk 1 (BBox.mk 0 0 1 1) none])] (some 30) 0 = [] := by
  refine C7_missing_frame_empty_players _ _ _ ?_
  intro f hf
  rw [List.mem_singleton] at hf
  subst hf
  norm_num [computeFrameId, payloadFps, jsOrQ]

/-- C9: when `frame_data` has several entries with the same frame id, the
constructed map keeps exactly the players list of the last such entry in
sequence order — each later `map.set` overwrites the earlier one — so the
mapping is a deterministic function of the ordered `frame_data` list. -/
theorem C9_last_duplicate_wins (l₁ l₂ : List FrameEntry) (f : FrameEntry) (k : Int)
    (hf : f.frame_id = k) (h₂ : ∀ g ∈ l₂, g.frame_id ≠ k) :
    framePlayerMap (l₁ ++ f :: l₂) k = some (f.players.getD []) := by
  unfold framePlayerMap
  rw [List.foldl_append, List.foldl_cons, foldl_mapSet_not_mem k l₂ _ h₂]
  show (if k = f.frame_id then some (f.players.getD []) else _) = _
  rw [if_pos hf.symm]

/-- C9, witness: two entries for frame 3; the lookup returns the second
entry's players. -/
theorem C9_last_duplicate_wins_witness :
    framePlayerMap
      [FrameEntry.mk 3 (some [Player.mk 1 (BBox.mk 0 0 1 1) none]),
       FrameEntry.mk 3 (some [Player.mk 2 (BBox.mk 0 0 2 2) (some 55)])] 3 =
      some [Player.mk 2 (BBox.mk 0 0 2 2) (some 55)] :=
  C9_last_duplicate_wins
    [FrameEntry.mk 3 (some [Player.mk 1 (BBox.mk 0 0 1 1) none])] []
    (FrameEntry.mk 3 (some [Player.mk 2 (BBox.mk 0 0 2 2) (some 55)])) 3
    rfl (by simp)

/-- C10: hover hit-testing is deterministic — when the video is playing no
player is hovered; when no player's box contains the cursor point no player
is hovered; and when the video is paused the hovered player is the first
player in list order whose box contains the point, with inclusive bounds. -/
theorem C10_hover_hit_testing (paused : Bool) (players : List Player) (px py : ℚ) :
    (paused = false → handleOverlayMouseMove paused players px py = none)
    ∧ ((∀ p ∈ players, inBBox px py p = false) →
        handleOverlayMouseMove paused players px py = none)
    ∧ (∀ l₁ p l₂, players = l₁ ++ p :: l₂ → inBBox px py p = true →
        (∀ q ∈ l₁, inBBox px py q = false) → paused = true →
        handleOverlayMouseMove paused players px py = some p) := by
  refine ⟨?_, ?_, ?_⟩
  · intro h
    simp [handleOverlayMouseMove, h]
  · intro h
    cases paused with
    | false => simp [handleOverlayMouseMove]
    | true =>
        simp only [handleOverlayMouseMove, Bool.not_true, Bool.false_eq_true,
          if_false, hitTest]
        rw [List.find?_eq_none]
        intro x hx
        simp [h x hx]
  · intro l₁ p l₂ hsplit hp hl₁ hpaused
    subst hsplit hpaused
    simp only [handleOverlayMouseMove, Bool.not_true, Bool.false_eq_true,
      if_false, hitTest]
    exact find?_first _ l₁ p l₂ hl₁ hp

/-- C10, witness: a single player whose box contains the cursor point is
hovered while the video is paused. -/
theorem C10_hover_hit_testing_witness :
    handleOverlayMouseMove true [Player.mk 1 (BBox.mk 0 0 10 10) (some 50)] 5 5 =
      some (Player.mk 1 (BBox.mk 0 0 10 10) (some 50)) :=
  (C10_hover_hit_testing true [Player.mk 1 (BBox.mk 0 0 10 10) (some 50)] 5 5).2.2
    [] (Player.mk 1 (BBox.mk 0 0 10 10) (some 50)) [] rfl (by decide) (by simp) rfl

/-- Along reachable `App` states, a non-null stored status implies a
non-null stored task id (the status is only ever set while a task id is
set). -/
theorem reachable_taskId_of_status {s : AppState} (h : Reachable s) :
    s.status.isSome = true → s.taskId.isSome = true := by
  induction h with
  | init => intro h0; simp [initialState] at h0
  | step e h ih =>
      rename_i s'
      cases e with
      | pollTick resp =>
          cases hp : pollingActive s' with
          | true =>
              intro _
              have := hp
              simp only [pollingActive, Bool.and_eq_true] at this
              simp [step, hp, applyPoll, this.1]
          | false => simp [step, hp]; exact ih
      | pollError d m =>
          cases hp : pollingActive s' with
          | true => simp [step, hp]; exact ih
          | false => simp [step, hp]; exact ih
      | uploadSuccess resp =>
          cases hv : uploadVisible s' with
          | true => simp [step, hv]
          | false => simp [step, hv]; exact ih
      | uploadError msg =>
          cases hv : uploadVisible s' with
          | true => simp [step, hv]; exact ih
          | false => simp [step, hv]; exact ih
      | reset => intro h0; simp [step, initialState] at h0

/-- A single non-reset event leaves a terminal stored status unchanged:
poll events are guarded out by `pollingActive`, upload callbacks are
guarded out by `uploadVisible` (the task id is set), and an upload error
touches only the error field. -/
theorem status_frozen_of_terminal {s : AppState} (hreach : Reachable s)
    (hterm : isTerminalStatus s.status = true) :
    ∀ e : AppEvent, e ≠ AppEvent.reset → (step e s).status = s.status := by
  intro e he
  have hpoll : pollingActive s = false := by
    simp [pollingActive, hterm]
  cases e with
  | pollTick resp => simp [step, hpoll]
  | pollError d m => simp [step, hpoll]
  | uploadSuccess resp =>
      have htask : s.taskId.isSome = true := by
        apply reachable_taskId_of_status hreach
        cases hs : s.status with
        | none => rw [hs] at hterm; simp [isTerminalStatus] at hterm
        | some st => simp
      have hv : uploadVisible s = false := by
        cases hts : s.taskId with
        | none => rw [hts] at htask; simp at htask
        | some v => simp [uploadVisible, hts]
      simp [step, hv]
  | uploadError msg =>
      simp only [step]
      cases uploadVisible s <;> simp
  | reset => exact absurd rfl he

/-- Terminal stored statuses are frozen along any sequence of non-reset
events. -/
theorem run_status_frozen :
    ∀ (es : List AppEvent) (s : AppState), Reachable s →
      isTerminalStatus s.status = true →
      (∀ e ∈ es, e ≠ AppEvent.reset) → (run s es).status = s.status
  | [], _, _, _, _ => rfl
  | e :: rest, s, hreach, hterm, hes => by
      rw [run, List.foldl_cons]
      have h1 : (step e s).status = s.status :=
        status_frozen_of_terminal hreach hterm e (hes e (List.mem_cons_self e rest))
      have h2 : isTerminalStatus (step e s).status = true := by rw [h1]; exact hterm
      have h3 := run_status_frozen rest (step e s) (Reachable.step e hreach) h2
        (fun g hg => hes g (List.mem_cons_of_mem e hg))
      rw [run] at h3
      rw [h3, h1]

/-- C4: `completed` and `failed` are terminal for the client — in any
reachable `App` state whose stored status is `completed` or `failed`,
polling is inactive (the effect installs no interval), and the stored
status is unchanged by every sequence of events that contains no explicit
reset. -/
theorem C4_terminal_states (s : AppState) (hreach : Reachable s)
    (hterm : s.status = some TaskStatus.completed ∨ s.status = some TaskStatus.failed) :
    pollingActive s = false
    ∧ ∀ es : List AppEvent, (∀ e ∈ es, e ≠ AppEvent.reset) →
        (run s es).status = s.status := by
  have hterm' : isTerminalStatus s.status = true := by
    rcases hterm with h | h <;> rw [h] <;> rfl
  exact ⟨by simp [pollingActive, hterm'],
    fun es hes => run_status_frozen es s hreach hterm' hes⟩

/-- C4, witness: after an upload and a `completed` poll, polling is off and
a further poll tick leaves the stored status `completed`. -/
theorem C4_terminal_states_witness :
    pollingActive
      (step (AppEvent.pollTick (StatusResponse.mk TaskStatus.completed none none))
        (step (AppEvent.uploadSuccess (UploadResponse.mk "t" TaskStatus.queued))
          initialState)) = false
    ∧ (run
        (step (AppEvent.pollTick (StatusResponse.mk TaskStatus.completed none none))
          (step (AppEvent.uploadSuccess (UploadResponse.mk "t" TaskStatus.queued))
            initialState))
        [AppEvent.pollTick (StatusResponse.mk TaskStatus.processing (some 10) none)]).status =
      (step (AppEvent.pollTick (StatusResponse.mk TaskStatus.completed none none))
        (step (AppEvent.uploadSuccess (UploadResponse.mk "t" TaskStatus.queued))
          initialState)).status := by
  have h := C4_terminal_states
    (step (AppEvent.pollTick (StatusResponse.mk TaskStatus.completed none none))
      (step (AppEvent.uploadSuccess (UploadResponse.mk "t" TaskStatus.queued))
        initialState))
    (Reachable.step (AppEvent.pollTick (StatusResponse.mk TaskStatus.completed none none))
      (Reachable.step (AppEvent.uploadSuccess (UploadResponse.mk "t" TaskStatus.queued))
        Reachable.init))
    (Or.inl rfl)
  exact ⟨h.1, h.2 [AppEvent.pollTick (StatusResponse.mk TaskStatus.processing (some 10) none)]
    (by
      intro e he hc
      rw [List.mem_singleton] at he
      subst he
      exact AppEvent.noConfusion hc)⟩

/-- C5: a poll tick whose response carries status `failed` stores a
human-readable error — the response's `message`, or the fixed default
`"Processing failed"` when the message is absent or empty — so the error
display (shown exactly when the stored error is non-null) is entered, the
stored status becomes the terminal `failed`, and polling deactivates; the
failure is never silently dropped. -/
theorem C5_failed_poll_surfaces_error (s : AppState) (resp : StatusResponse)
    (hactive : pollingActive s = true) (hfail : resp.status = TaskStatus.failed) :
    (step (AppEvent.pollTick resp) s).error = some (jsOrStr resp.message "Processing failed")
    ∧ (step (AppEvent.pollTick resp) s).error ≠ none
    ∧ (step (AppEvent.pollTick resp) s).status = some TaskStatus.failed
    ∧ pollingActive (step (AppEvent.pollTick resp) s) = false := by
  have htask : s.taskId.isSome = true := by
    have := hactive
    simp only [pollingActive, Bool.and_eq_true] at this
    exact this.1
  have hs1 : step (AppEvent.pollTick resp) s = applyPoll resp s := by
    simp [step, hactive]
  rw [hs1]
  simp [applyPoll, hfail, pollingActive, isTerminalStatus, htask]

/-- C5, witness: a failed poll with no message on a freshly uploaded task
stores the default reason and lands in the terminal error display. -/
theorem C5_failed_poll_surfaces_error_witness :
    (step (AppEvent.pollTick (StatusResponse.mk TaskStatus.failed none none))
      (step (AppEvent.uploadSuccess (UploadResponse.mk "t" TaskStatus.queued))
        initialState)).error = some (jsOrStr none "Processing failed")
    ∧ (step (AppEvent.pollTick (StatusResponse.mk TaskStatus.failed none none))
      (step (AppEvent.uploadSuccess (UploadResponse.mk "t" TaskStatus.queued))
        initialState)).error ≠ none
    ∧ (step (AppEvent.pollTick (StatusResponse.mk TaskStatus.failed none none))
      (step (AppEvent.uploadSuccess (UploadResponse.mk "t" TaskStatus.queued))
        initialState)).status = some TaskStatus.failed
    ∧ pollingActive
        (step (AppEvent.pollTick (StatusResponse.mk TaskStatus.failed none none))
          (step (AppEvent.uploadSuccess (UploadResponse.mk "t" TaskStatus.queued))
            initialState)) = false :=
  C5_failed_poll_surfaces_error
    (step (AppEvent.uploadSuccess (UploadResponse.mk "t" TaskStatus.queued)) initialState)
    (StatusResponse.mk TaskStatus.failed none none) rfl rfl

/-- C3, counterexample: the claim "the stored progress never moves backward
across consecutive processing polls" is false on the code — the client
stores each response's progress verbatim (`setProgress(statusData.progress
|| 0)`), so a server that reports 50 and then 40 while `processing` makes
the stored progress move backward. -/
theorem C3_counterexample :
    (run initialState
      [AppEvent.uploadSuccess (UploadResponse.mk "t" TaskStatus.processing),
       AppEvent.pollTick (StatusResponse.mk TaskStatus.processing (some 50) none)]).progress = 50
    ∧ (run initialState
      [AppEvent.uploadSuccess (UploadResponse.mk "t" TaskStatus.processing),
       AppEvent.pollTick (StatusResponse.mk TaskStatus.processing (some 50) none),
       AppEvent.pollTick (StatusResponse.mk TaskStatus.processing (some 40) none)]).progress = 40
    ∧ (run initialState
      [AppEvent.uploadSuccess (UploadResponse.mk "t" TaskStatus.processing),
       AppEvent.pollTick (StatusResponse.mk TaskStatus.processing (some 50) none),
       AppEvent.pollTick (StatusResponse.mk TaskStatus.processing (some 40) none)]).status =
      some TaskStatus.processing
    ∧ (40 : ℚ) < 50 := by
  refine ⟨?_, ?_, rfl, by norm_num⟩
  · show jsOrQ (some 50) 0 = 50
    norm_num [jsOrQ]
  · show jsOrQ (some 40) 0 = 40
    norm_num [jsOrQ]

/-- C3, amended: after each poll the stored progress equals the progress
reported by that poll's response (coalesced to 0 when absent or zero); the
client applies no clamping, so across two consecutive processing polls the
stored progress is non-decreasing exactly when the reported values are. -/
theorem C3_progress_tracks_server (s : AppState) (r1 r2 : StatusResponse)
    (hactive : pollingActive s = true) (h1 : r1.status = TaskStatus.processing) :
    (step (AppEvent.pollTick r1) s).progress = jsOrQ r1.progress 0
    ∧ (step (AppEvent.pollTick r2) (step (AppEvent.pollTick r1) s)).progress =
        jsOrQ r2.progress 0
    ∧ ((step (AppEvent.pollTick r1) s).progress
        ≤ (step (AppEvent.pollTick r2) (step (AppEvent.pollTick r1) s)).progress
        ↔ jsOrQ r1.progress 0 ≤ jsOrQ r2.progress 0) := by
  have htask : s.taskId.isSome = true := by
    have := hactive
    simp only [pollingActive, Bool.and_eq_true] at this
    exact this.1
  have hs1 : step (AppEvent.pollTick r1) s = applyPoll r1 s := by
    simp [step, hactive]
  have hactive1 : pollingActive (applyPoll r1 s) = true := by
    simp [applyPoll, pollingActive, isTerminalStatus, h1, htask]
  have hs2 : step (AppEvent.pollTick r2) (applyPoll r1 s) = applyPoll r2 (applyPoll r1 s) := by
    simp [step, hactive1]
  rw [hs1, hs2]
  simp [applyPoll]

/-- C3, witness: the amended claim evaluated on a fresh processing task and
two concrete processing responses. -/
theorem C3_progress_tracks_server_witness :
    (step (AppEvent.pollTick (StatusResponse.mk TaskStatus.processing (some 10) none))
      (step (AppEvent.uploadSuccess (UploadResponse.mk "t" TaskStatus.processing))
        initialState)).progress = jsOrQ (some 10) 0
    ∧ (step (AppEvent.pollTick (StatusResponse.mk TaskStatus.processing none none))
        (step (AppEvent.pollTick (StatusResponse.mk TaskStatus.processing (some 10) none))
          (step (AppEvent.uploadSuccess (UploadResponse.mk "t" TaskStatus.processing))
            initialState))).progress = jsOrQ none 0
    ∧ ((step (AppEvent.pollTick (StatusResponse.mk TaskStatus.processing (some 10) none))
          (step (AppEvent.uploadSuccess (UploadResponse.mk "t" TaskStatus.processing))
            initialState)).progress
        ≤ (step (AppEvent.pollTick (StatusResponse.mk TaskStatus.processing none none))
            (step (AppEvent.pollTick (StatusResponse.mk TaskStatus.processing (some 10) none))
              (step (AppEvent.uploadSuccess (UploadResponse.mk "t" TaskStatus.processing))
                initialState))).progress
        ↔ jsOrQ (some 10) 0 ≤ jsOrQ none 0) :=
  C3_progress_tracks_server
    (step (AppEvent.uploadSuccess (UploadResponse.mk "t" TaskStatus.processing)) initialState)
    (StatusResponse.mk TaskStatus.processing (some 10) none)
    (StatusResponse.mk TaskStatus.processing none none) rfl rfl

/-- An `onDrop` call issues an upload only when nothing was rejected and
the accepted list is non-empty, and it uploads the first accepted file. -/
theorem onDrop_upload_some (acc : List DroppedFile) (rej : List RejectedFile)
    (f : DroppedFile) (h : (onDrop acc rej).upload = some f) :
    rej = [] ∧ ∃ rest, acc = f :: rest := by
  cases rej with
  | cons r rs => simp [onDrop] at h
  | nil =>
      cases acc with
      | nil => simp [onDrop] at h
      | cons g rest =>
          simp [onDrop] at h
          exact ⟨rfl, rest, by rw [h]⟩

/-- C8: a dropped file is uploaded only when it is the single file of the
drop and passes the MP4 acceptance check; on every drop with a rejection
no upload is issued and a descriptive error is stored, with
`file-invalid-type` mapped to "Only MP4 files are allowed" and
`too-many-files` mapped to "Please upload only one file at a time". -/
theorem C8_upload_gate (files : List DroppedFile) :
    (∀ f, (fullDrop files).upload = some f → files = [f] ∧ acceptsMp4 f = true)
    ∧ ((classifyDrop files).2 ≠ [] →
        (fullDrop files).upload = none ∧ (fullDrop files).uploadError ≠ none)
    ∧ (∀ r rs, (classifyDrop files).2 = r :: rs →
        (r.code = "file-invalid-type" →
          (fullDrop files).uploadError = some "Only MP4 files are allowed")
        ∧ (r.code = "too-many-files" →
          (fullDrop files).uploadError = some "Please upload only one file at a time")) := by
  refine ⟨?_, ?_, ?_⟩
  · intro f h
    obtain ⟨hrej, rest, hacc⟩ := onDrop_upload_some _ _ f h
    by_cases hlen : (files.filter acceptsMp4).length > 1
    · exfalso
      simp only [classifyDrop, hlen, if_true] at hrej
      have hmap := (List.append_eq_nil.mp hrej).2
      have hA : files.filter acceptsMp4 = [] := List.map_eq_nil_iff.mp hmap
      rw [hA] at hlen
      simp at hlen
    · simp only [classifyDrop, hlen, if_false] at hrej hacc
      have hneg : files.filter (fun g => !acceptsMp4 g) = [] := List.map_eq_nil_iff.mp hrej
      have hall : ∀ x ∈ files, acceptsMp4 x = true := by
        intro x hx
        have hx' := List.filter_eq_nil_iff.mp hneg x hx
        simpa using hx'
      have hself : files.filter acceptsMp4 = files := List.filter_eq_self.mpr hall
      rw [hself] at hacc hlen
      rw [hacc] at hlen
      have hrest : rest = [] := by
        cases rest with
        | nil => rfl
        | cons a b =>
            exfalso
            apply hlen
            simp only [List.length_cons]
            omega
      subst hrest
      exact ⟨hacc, hall f (by rw [hacc]; exact List.mem_cons_self f [])⟩
  · intro hne
    rcases hC2 : (classifyDrop files).2 with _ | ⟨r, rs⟩
    · exact absurd hC2 hne
    · unfold fullDrop
      rw [hC2]
      simp [onDrop]
  · intro r rs hC2
    unfold fullDrop
    rw [hC2]
    constructor
    · intro hcode
      simp [onDrop, hcode]
    · intro hcode
      simp [onDrop, hcode]

/-- C8, witness: dropping a single PNG issues no upload and stores the
invalid-type message. -/
theorem C8_upload_gate_witness :
    (fullDrop [DroppedFile.mk "play.png" "image/png"]).upload = none
    ∧ (fullDrop [DroppedFile.mk "play.png" "image/png"]).uploadError =
        some "Only MP4 files are allowed" :=
  ⟨((C8_upload_gate [DroppedFile.mk "play.png" "image/png"]).2.1 (by decide)).1,
   ((C8_upload_gate [DroppedFile.mk "play.png" "image/png"]).2.2
      (RejectedFile.mk (DroppedFile.mk "play.png" "image/png") "file-invalid-type"
        "File type must be video/mp4,.mp4") []
      (by decide)).1 rfl⟩

end NflFrontend
